import Mathlib

/-!
Verification of the query/report layer of the Local Food Wastage Management
System (`streamlit_app.py`): the browse filter builder, the result ordering,
the CRUD statement construction, the startup schema check, the Q11 report,
and the cached read / transactional write data-access layer.

SQL text values are modelled as Lean `String`s; SQLite's text comparison
(byte-wise on UTF-8, which on the ASCII date strings involved coincides with
code-point lexicographic order) is modelled by lexicographic comparison of
the lists of character codes. `NULL`-able columns are `Option String`.
Tabular results are `List (List String)`.
-/

namespace FoodWaste

/-! ## Relational data model (the four tables of the store) -/

/-- A row of the `providers` table (columns used by the app:
`provider_id, name, type, address, city, contact`). -/
structure Provider where
  provider_id : Nat
  name : String
  type : String
  address : String
  city : String
  contact : String
deriving DecidableEq

/-- A row of the `receivers` table. -/
structure Receiver where
  receiver_id : Nat
  name : String
  category : String
  address : String
  city : String
  contact : String
deriving DecidableEq

/-- A row of the `food_listings` table. `expiry_date` is nullable; the app
itself inserts ISO datetime strings (`datetime.combine(...).isoformat()`). -/
structure Listing where
  food_id : Nat
  provider_id : Nat
  food_name : String
  food_type : String
  meal_type : String
  quantity : Int
  expiry_date : Option String
  location : String
deriving DecidableEq

/-- A row of the `claims` table. -/
structure Claim where
  claim_id : Nat
  food_id : Nat
  receiver_id : Nat
  status : String
  timestamp : String
deriving DecidableEq

/-- The relational store: the four tables the application requires. -/
structure DB where
  providers : List Provider
  receivers : List Receiver
  food_listings : List Listing
  claims : List Claim
deriving DecidableEq

/-! ## String comparison and sorting

SQLite compares TEXT values byte-wise; on the ASCII strings involved this is
lexicographic comparison of character codes. -/

/-- Lexicographic less-or-equal on lists of naturals. -/
def natLexLe : List Nat → List Nat → Bool
  | [], _ => true
  | _ :: _, [] => false
  | a :: as, b :: bs => if a < b then true else if b < a then false else natLexLe as bs

/-- The character codes of a string. -/
def strCodes (s : String) : List Nat := s.toList.map Char.toNat

/-- SQLite TEXT less-or-equal, modelled on character codes. -/
def strLeB (a b : String) : Bool := natLexLe (strCodes a) (strCodes b)

/-- SQLite TEXT strict less-than: `a < b` iff not `b ≤ a`. -/
def strLtB (a b : String) : Bool := !(natLexLe (strCodes b) (strCodes a))

/-- Insert an element into a list so that a comparator-sorted list stays
sorted (the insertion step of insertion sort). -/
def insertBy {α : Type} (le : α → α → Bool) (x : α) : List α → List α
  | [] => [x]
  | y :: ys => if le x y then x :: y :: ys else y :: insertBy le x ys

/-- Insertion sort by a boolean comparator; models the total `ORDER BY`
performed by the SQL engine. -/
def sortBy {α : Type} (le : α → α → Bool) : List α → List α
  | [] => []
  | x :: xs => insertBy le x (sortBy le xs)

/-! ## Browse & Filter page (source lines 86-108)

The base query joins `food_listings` to `providers` with a `LEFT JOIN`, then
appends one `LOWER(TRIM(column)) = LOWER(TRIM(:param))` predicate per
non-"All" filter selection, then the `ORDER BY` clause. -/

/-- The `base_q` string literal of the source (triple-quoted, so it carries
its newlines and indentation). -/
def browse_base : String :=
  "\n        SELECT f.food_id, f.food_name, f.food_type, f.quantity, f.expiry_date,\n               f.location, p.name AS provider_name, p.contact AS provider_contact\n        FROM food_listings f\n        LEFT JOIN providers p ON f.provider_id = p.provider_id\n        WHERE 1=1\n    "

/-- Predicate fragment appended when the location filter is active. -/
def loc_frag : String := " AND LOWER(TRIM(f.location)) = LOWER(TRIM(:loc))"

/-- Predicate fragment appended when the provider filter is active. -/
def prov_frag : String := " AND LOWER(TRIM(p.name)) = LOWER(TRIM(:pname))"

/-- Predicate fragment appended when the food-type filter is active. -/
def type_frag : String := " AND LOWER(TRIM(f.food_type)) = LOWER(TRIM(:ft))"

/-- The ordering clause appended to every browse query. -/
def order_clause : String := " ORDER BY COALESCE(f.expiry_date, '9999-12-31') ASC"

/-- The browse query construction of the source: statement text plus the
parameter bindings, built by successive appends exactly as in the Python. -/
def browse_query (loc_choice prov_choice type_choice : String) :
    String × List (String × String) :=
  let q := browse_base
  let ps : List (String × String) := []
  let q := if loc_choice ≠ "All" then q ++ loc_frag else q
  let ps := if loc_choice ≠ "All" then ps ++ [("loc", loc_choice)] else ps
  let q := if prov_choice ≠ "All" then q ++ prov_frag else q
  let ps := if prov_choice ≠ "All" then ps ++ [("pname", prov_choice)] else ps
  let q := if type_choice ≠ "All" then q ++ type_frag else q
  let ps := if type_choice ≠ "All" then ps ++ [("ft", type_choice)] else ps
  (q ++ order_clause, ps)

/-- A row of the browse result: listing columns plus the (nullable, because
of the LEFT JOIN) provider columns. -/
structure BrowseRow where
  food_id : Nat
  food_name : String
  food_type : String
  quantity : Int
  expiry_date : Option String
  location : String
  provider_name : Option String
  provider_contact : Option String
deriving DecidableEq

/-- SQLite `LOWER` on one character code: fold ASCII A-Z to a-z. -/
def lowerCode (n : Nat) : Nat := if 65 ≤ n ∧ n ≤ 90 then n + 32 else n

/-- SQLite `TRIM`: strip leading and trailing spaces (code 32). -/
def trimSpaces (l : List Nat) : List Nat :=
  ((l.dropWhile (fun c => c == 32)).reverse.dropWhile (fun c => c == 32)).reverse

/-- The comparison key `LOWER(TRIM(x))` of a text value, as character codes. -/
def normCodes (s : String) : List Nat := trimSpaces ((strCodes s).map lowerCode)

/-- Semantics of `LOWER(TRIM(x)) = LOWER(TRIM(:v))` on a non-NULL column. -/
def normEq (a b : String) : Bool := normCodes a == normCodes b

/-- Semantics of `LOWER(TRIM(x)) = LOWER(TRIM(:v))` on a nullable column:
in SQL a comparison against NULL is not true, so the row is excluded. -/
def normEqOpt (a : Option String) (b : String) : Bool :=
  match a with
  | none => false
  | some s => normEq s b

/-- Semantics of the browse WHERE clause on a joined row: the conjunction of
the appended predicates; an "All" selection contributes no predicate. -/
def rowMatches (loc_choice prov_choice type_choice : String) (r : BrowseRow) : Bool :=
  (loc_choice == "All" || normEq r.location loc_choice)
    && (prov_choice == "All" || normEqOpt r.provider_name prov_choice)
    && (type_choice == "All" || normEq r.food_type type_choice)

/-- The `COALESCE(f.expiry_date, '9999-12-31')` sort key. -/
def expiryKey (r : BrowseRow) : String := r.expiry_date.getD "9999-12-31"

/-- Character codes of the sort key. -/
def keyCodes (r : BrowseRow) : List Nat := strCodes (expiryKey r)

/-- The `ORDER BY` comparator of the browse query. -/
def rowLe (a b : BrowseRow) : Bool := natLexLe (keyCodes a) (keyCodes b)

/-- Sorting the browse rows, modelling `ORDER BY COALESCE(...) ASC`. -/
def browseSort (rows : List BrowseRow) : List BrowseRow := sortBy rowLe rows

/-- The LEFT JOIN of one listing against the providers table: the first
provider with matching id, or NULL provider columns when none matches. -/
def browseRowOf (db : DB) (f : Listing) : BrowseRow :=
  match db.providers.find? (fun p => decide (p.provider_id = f.provider_id)) with
  | some p =>
      { food_id := f.food_id, food_name := f.food_name, food_type := f.food_type,
        quantity := f.quantity, expiry_date := f.expiry_date, location := f.location,
        provider_name := some p.name, provider_contact := some p.contact }
  | none =>
      { food_id := f.food_id, food_name := f.food_name, food_type := f.food_type,
        quantity := f.quantity, expiry_date := f.expiry_date, location := f.location,
        provider_name := none, provider_contact := none }

/-- All joined rows, one per listing (LEFT JOIN keeps every listing). -/
def browse_rows (db : DB) : List BrowseRow :=
  db.food_listings.map (browseRowOf db)

/-- The full browse result: join, filter by the three selections, order. -/
def browse_result (db : DB) (loc_choice prov_choice type_choice : String) :
    List BrowseRow :=
  browseSort ((browse_rows db).filter (rowMatches loc_choice prov_choice type_choice))

/-! ## CRUD statement construction (source lines 150-221)

The table name `section` comes from a selectbox over the four fixed tables;
the update column name comes from a free-text input and is interpolated into
the statement text with only a non-emptiness check. All user-supplied values
travel in the parameter mapping. -/

/-- The options of the CRUD table selectbox (source line 152). -/
def SECTIONS : List String := ["providers", "receivers", "food_listings", "claims"]

/-- The primary-key column per table (the `id_col` dict, source line 206).
The dict is only ever indexed with one of the four selectbox values. -/
def id_col : String → String
  | "providers" => "provider_id"
  | "receivers" => "receiver_id"
  | "food_listings" => "food_id"
  | "claims" => "claim_id"
  | _ => ""

/-- The f-string of the UPDATE branch (source line 212): both the table name
and the free-text column name are interpolated into the statement text. -/
def update_query (s col_to_update : String) : String :=
  "UPDATE " ++ s ++ " SET " ++ col_to_update ++ " = :val WHERE " ++ id_col s ++ " = :id"

/-- The Update button handler (source lines 210-213): when the column field
is non-empty (Python truthiness of the string) the statement is built and
submitted to `run_write` with the new value and the id as bound parameters;
an empty column field submits nothing. -/
def update_submit (s col_to_update : String) (rec_id : Nat) (new_val : String) :
    Option (String × List (String × String)) :=
  if col_to_update = "" then none
  else some (update_query s col_to_update, [("val", new_val), ("id", toString rec_id)])

/-- Every column name of the four tables that the application's own SQL ever
names: the fixed allow-list of known identifiers. -/
def KNOWN_COLUMNS : List String :=
  ["provider_id", "receiver_id", "food_id", "claim_id",
   "name", "type", "category", "address", "city", "contact",
   "food_name", "food_type", "meal_type", "quantity", "expiry_date", "location",
   "status", "timestamp"]

/-- The DELETE branch (source line 221): delete the provider row whose
`provider_id` equals the bound id; nothing else is touched. -/
def delete_provider (pid : Nat) (db : DB) : DB :=
  { db with providers := db.providers.filter (fun p => decide (p.provider_id ≠ pid)) }

/-! ## Startup schema check (source lines 46-55) -/

/-- The four required tables, listed in the alphabetical order `sorted(...)`
produces when the warning is assembled. -/
def REQUIRED_TABLES_SORTED : List String :=
  ["claims", "food_listings", "providers", "receivers"]

/-- `REQUIRED_TABLES - tables_present()`, iterated in sorted order. -/
def missing_tables (present : List String) : List String :=
  REQUIRED_TABLES_SORTED.filter (fun t => !(present.contains t))

/-- Outcome of the startup check: proceed to the UI, or halt (`st.stop`)
behind a single warning message. -/
inductive Startup where
  | proceed : Startup
  | halt (warning : String) : Startup
deriving DecidableEq

/-- The startup check (source lines 51-55): warn and halt when any required
table is missing from the store's catalog, else proceed. -/
def startup (present : List String) : Startup :=
  match missing_tables present with
  | [] => .proceed
  | m => .halt ("⚠️ Some required tables are missing: " ++ String.intercalate ", " m)

/-! ## Report Q11: claim status distribution (source line 240)

`SELECT status, COUNT(*) AS cnt, ROUND(100.0 * COUNT(*) / (SELECT COUNT(*)
FROM claims), 2) AS pct FROM claims GROUP BY status`. The float arithmetic is
modelled exactly over the rationals (the values involved are nowhere near a
rounding tie, so the model agrees with IEEE doubles); `ROUND(x, 2)` rounds
half away from zero, which for the non-negative values here is `round`. -/

/-- An INSERT into `claims` (source line 201): the new row is appended. -/
def insertClaim (c : Claim) (cs : List Claim) : List Claim := cs ++ [c]

/-- Remove adjacent duplicates of a sorted list, keeping one per group. -/
def dedupAdj : List String → List String
  | [] => []
  | [x] => [x]
  | x :: y :: xs => if x = y then dedupAdj (y :: xs) else x :: dedupAdj (y :: xs)

/-- `ROUND(q, 2)`: round to two decimal places. -/
def round2 (q : ℚ) : ℚ := ((round (q * 100) : ℤ) : ℚ) / 100

/-- The Q11 report: one row per distinct status (GROUP BY over a TEXT column
yields the groups in ascending status order) carrying the group count and the
percentage `ROUND(100.0 * COUNT(*) / total, 2)`. -/
def q11 (cs : List Claim) : List (String × Nat × ℚ) :=
  (dedupAdj (sortBy strLeB (cs.map Claim.status))).map (fun st =>
    (st, (cs.filter (fun c => decide (c.status = st))).length,
      round2 (100 * (((cs.filter (fun c => decide (c.status = st))).length : ℚ))
        / (cs.length : ℚ))))

/-- Whether every non-NULL expiry date in the store compares strictly below
the `'9999-12-31'` sentinel of the ORDER BY's COALESCE. -/
def allBelowSentinel (db : DB) : Bool :=
  db.food_listings.all (fun f =>
    match f.expiry_date with
    | none => true
    | some d => strLtB d "9999-12-31")

/-! ## Data Access Layer with cache (source lines 21-43)

`fetch_df` is wrapped in `st.cache_data(ttl=60)`: results (including the
empty frame produced by the error branch) are memoized per
(statement text, parameters) key for 60 time units. `run_write` executes one
statement in an atomic transaction and clears the whole cache on success.
The semantics of executing a statement against the store is a parameter
(`run` for reads, `wexec` for writes): a read yields a data frame or an error
message, a write yields the new store state or an error message — a failed
transaction is rolled back, so the store is unchanged on error. -/

/-- A tabular result (a data frame): rows of column values. -/
def DF : Type := List (List String)
deriving DecidableEq

/-- The empty data frame `pd.DataFrame()`. -/
def emptyDF : DF := []

/-- A cache key: the exact statement text and parameter mapping. -/
structure Key where
  query : String
  params : List (String × String)
deriving DecidableEq

/-- The cache TTL of `st.cache_data(ttl=60)`. -/
def TTL : Nat := 60

/-- One cache lookup: the newest entry for the key, if it is younger than
the TTL; an older entry is treated as absent. -/
def lookupFresh (cache : List (Key × Nat × DF)) (now : Nat) (k : Key) : Option DF :=
  match cache.find? (fun e => decide (e.1 = k)) with
  | some (_, t0, df) => if now < t0 + TTL then some df else none
  | none => none

/-- The body of `fetch_df` (source lines 22-27): execute the read; on any
execution failure return the empty frame and surface an error message
instead of propagating the exception. -/
def fetch_df_run (run : Key → DB → Except String DF) (db : DB) (k : Key) :
    DF × Option String :=
  match run k db with
  | .ok df => (df, none)
  | .error e => (emptyDF, some ("SQL error: " ++ e))

/-- Process-wide state: the store, the read cache, the user-visible message
log, and a counter of statement executions against the store. -/
structure Sys where
  db : DB
  cache : List (Key × Nat × DF)
  log : List String
  execCount : Nat
deriving DecidableEq

/-- `fetch_df` as seen through `st.cache_data`: a fresh cached entry is
returned as-is (no execution, no message); otherwise the statement runs and
its result — empty frame included — is cached at the current time. -/
def cachedFetch (run : Key → DB → Except String DF) (now : Nat) (s : Sys) (k : Key) :
    DF × Sys :=
  match lookupFresh s.cache now k with
  | some df => (df, s)
  | none =>
      let r := fetch_df_run run s.db k
      (r.1, { s with
                cache := (k, now, r.1) :: s.cache,
                log := s.log ++ (match r.2 with | some m => [m] | none => []),
                execCount := s.execCount + 1 })

/-- `run_write` (source lines 35-43): run the single write statement inside
an atomic transaction; on success report it and clear the entire cache; on
failure the transaction is rolled back (store unchanged) and only the error
message is added. -/
def run_write (wexec : Key → DB → Except String DB) (s : Sys) (w : Key) : Sys :=
  match wexec w s.db with
  | .ok db' =>
      { db := db', cache := [], log := s.log ++ ["Operation successful."],
        execCount := s.execCount }
  | .error e => { s with log := s.log ++ ["Write error: " ++ e] }

/-! ## Concrete instances used by witnesses and counterexamples -/

/-- An empty store. -/
def db0 : DB := ⟨[], [], [], []⟩

/-- A sample read statement key. -/
def kR : Key := ⟨"SELECT name FROM sqlite_master WHERE type='table'", []⟩

/-- A sample write statement key. -/
def kW : Key := ⟨"DELETE FROM providers WHERE provider_id = :id", [("id", "1")]⟩

/-- A read semantics that always succeeds with a one-cell frame. -/
def runOk : Key → DB → Except String DF := fun _ _ => .ok [["1"]]

/-- A read semantics that always fails (store unavailable). -/
def runErr : Key → DB → Except String DF := fun _ _ => .error "disk I/O error"

/-- A read semantics for a store whose failure has been repaired. -/
def runFixed : Key → DB → Except String DF := fun _ _ => .ok [["42"]]

/-- A write semantics whose transaction commits (here: a no-op write). -/
def wexecOk : Key → DB → Except String DB := fun _ db => .ok db

/-- A system state holding one cached entry, as left by an earlier read. -/
def sysC2 : Sys := ⟨db0, [(kR, 0, [["stale"]])], [], 1⟩

/-- A freshly started system: empty cache, empty log. -/
def sys0 : Sys := ⟨db0, [], [], 0⟩

/-- A listing whose expiry is the app's own ISO datetime on 9999-12-31. -/
def lBig : Listing :=
  ⟨1, 1, "Bread", "Veg", "Lunch", 3, some "9999-12-31T00:00:00", "Delhi"⟩

/-- A listing with a NULL expiry date. -/
def lNull : Listing := ⟨2, 1, "Rice", "Veg", "Lunch", 5, none, "Delhi"⟩

/-- The store refuting the null-sorts-last reading of the ordering claim. -/
def dbC5 : DB := ⟨[], [], [lBig, lNull], []⟩

/-- A store with one dated and one undated listing, all expiries strictly
below the sentinel. -/
def dbW5 : DB :=
  ⟨[], [], [⟨1, 1, "Bread", "Veg", "Lunch", 3, some "2025-01-01T00:00:00", "Delhi"⟩,
            ⟨2, 1, "Rice", "Veg", "Lunch", 5, none, "Delhi"⟩], []⟩

/-- An orphaned listing: its provider reference matches no provider row. -/
def lOrphan : Listing := ⟨1, 7, "Bread", "Veg", "Lunch", 3, none, "Delhi"⟩

/-- A store holding only the orphaned listing. -/
def dbW10 : DB := ⟨[], [], [lOrphan], []⟩

/-- The claims table after inserting, into an empty table, three claims with
statuses "Completed", "Pending", "Completed" (scenario of the report test). -/
def csC8 : List Claim :=
  insertClaim ⟨3, 3, 1, "Completed", "2025-01-03"⟩
    (insertClaim ⟨2, 2, 1, "Pending", "2025-01-02"⟩
      (insertClaim ⟨1, 1, 1, "Completed", "2025-01-01"⟩ []))

/-- A browse row as the sample filters expect it. -/
def rW4 : BrowseRow :=
  ⟨1, "Bread", "Veg", 3, some "2025-01-01", " delhi ", some "Acme Foods", some "555-0100"⟩

/-! ## Helper lemmas: the comparator is a total preorder and insertion sort
is a permutation producing a pairwise-ordered list -/

theorem natLexLe_total : ∀ x y : List Nat, natLexLe x y = true ∨ natLexLe y x = true := by
  intro x
  induction x with
  | nil => intro y; left; rfl
  | cons a as ih =>
    intro y
    cases y with
    | nil => right; rfl
    | cons b bs =>
      by_cases hab : a < b
      · left; simp [natLexLe, hab]
      · by_cases hba : b < a
        · right; simp [natLexLe, hba]
        · have hab' : a = b := Nat.le_antisymm (Nat.not_lt.mp hba) (Nat.not_lt.mp hab)
          subst hab'
          rcases ih bs with h | h
          · left; simp [natLexLe, h]
          · right; simp [natLexLe, h]

theorem natLexLe_trans :
    ∀ x y z : List Nat, natLexLe x y = true → natLexLe y z = true → natLexLe x z = true := by
  intro x
  induction x with
  | nil => intro y z _ _; rfl
  | cons a as ih =>
    intro y z hxy hyz
    cases y with
    | nil => simp [natLexLe] at hxy
    | cons b bs =>
      cases z with
      | nil => simp [natLexLe] at hyz
      | cons c cs =>
        by_cases hab : a < b
        · by_cases hbc : b < c
          · simp [natLexLe, Nat.lt_trans hab hbc]
          · by_cases hcb : c < b
            · simp [natLexLe, hbc, hcb] at hyz
            · have hbc' : b = c := Nat.le_antisymm (Nat.not_lt.mp hcb) (Nat.not_lt.mp hbc)
              subst hbc'
              simp [natLexLe, hab]
        · by_cases hba : b < a
          · simp [natLexLe, hab, hba] at hxy
          · have hab' : a = b := Nat.le_antisymm (Nat.not_lt.mp hba) (Nat.not_lt.mp hab)
            subst hab'
            by_cases hbc : a < c
            · simp [natLexLe, hbc]
            · by_cases hcb : c < a
              · simp [natLexLe, hbc, hcb] at hyz
              · have hbc' : a = c := Nat.le_antisymm (Nat.not_lt.mp hcb) (Nat.not_lt.mp hbc)
                subst hbc'
                simp only [natLexLe, Nat.lt_irrefl, if_false] at hxy hyz ⊢
                exact ih bs cs hxy hyz

theorem mem_insertBy {α : Type} (le : α → α → Bool) (x : α) :
    ∀ (l : List α) (y : α), y ∈ insertBy le x l ↔ y = x ∨ y ∈ l := by
  intro l
  induction l with
  | nil => intro y; simp [insertBy]
  | cons z zs ih =>
    intro y
    by_cases h : le x z = true
    · simp [insertBy, h, List.mem_cons]
    · simp only [insertBy, if_neg h, List.mem_cons, ih]
      tauto

theorem mem_sortBy {α : Type} (le : α → α → Bool) :
    ∀ (l : List α) (y : α), y ∈ sortBy le l ↔ y ∈ l := by
  intro l
  induction l with
  | nil => intro y; simp [sortBy]
  | cons z zs ih =>
    intro y
    simp only [sortBy, mem_insertBy, ih, List.mem_cons]

theorem pairwise_insertBy {α : Type} (le : α → α → Bool)
    (htot : ∀ a b, le a b = true ∨ le b a = true)
    (htrans : ∀ a b c, le a b = true → le b c = true → le a c = true) (x : α) :
    ∀ l : List α, l.Pairwise (fun a b => le a b = true) →
      (insertBy le x l).Pairwise (fun a b => le a b = true) := by
  intro l
  induction l with
  | nil => intro _; simp [insertBy]
  | cons z zs ih =>
    intro hp
    rw [List.pairwise_cons] at hp
    obtain ⟨hz, hzs⟩ := hp
    by_cases h : le x z = true
    · simp only [insertBy, if_pos h]
      rw [List.pairwise_cons]
      refine ⟨?_, ?_⟩
      · intro y hy
        rcases List.mem_cons.mp hy with rfl | hy'
        · exact h
        · exact htrans x z y h (hz y hy')
      · rw [List.pairwise_cons]
        exact ⟨hz, hzs⟩
    · simp only [insertBy, if_neg h]
      rw [List.pairwise_cons]
      refine ⟨?_, ih hzs⟩
      intro y hy
      rcases (mem_insertBy le x zs y).mp hy with rfl | hy'
      · rcases htot y z with h' | h'
        · exact absurd h' h
        · exact h'
      · exact hz y hy'

theorem pairwise_sortBy {α : Type} (le : α → α → Bool)
    (htot : ∀ a b, le a b = true ∨ le b a = true)
    (htrans : ∀ a b c, le a b = true → le b c = true → le a c = true) :
    ∀ l : List α, (sortBy le l).Pairwise (fun a b => le a b = true) := by
  intro l
  induction l with
  | nil => simp [sortBy]
  | cons z zs ih => exact pairwise_insertBy le htot htrans z (sortBy le zs) ih

theorem rowLe_total : ∀ a b : BrowseRow, rowLe a b = true ∨ rowLe b a = true :=
  fun a b => natLexLe_total (keyCodes a) (keyCodes b)

theorem rowLe_trans :
    ∀ a b c : BrowseRow, rowLe a b = true → rowLe b c = true → rowLe a c = true :=
  fun a b c => natLexLe_trans (keyCodes a) (keyCodes b) (keyCodes c)

/-- The expiry date survives the LEFT JOIN unchanged. -/
theorem browseRowOf_expiry (db : DB) (f : Listing) :
    (browseRowOf db f).expiry_date = f.expiry_date := by
  unfold browseRowOf
  cases db.providers.find? (fun p => decide (p.provider_id = f.provider_id)) <;> rfl

/-- Every filter triple of the form "All"/"All"/"All" keeps every row. -/
theorem rowMatches_all (r : BrowseRow) : rowMatches "All" "All" "All" r = true := rfl

/-- The browse query construction in closed form: one predicate fragment and
one binding per non-"All" selection, in filter order. -/
theorem browse_query_eq (loc_choice prov_choice type_choice : String) :
    browse_query loc_choice prov_choice type_choice =
      (browse_base ++ (if loc_choice = "All" then "" else loc_frag)
          ++ (if prov_choice = "All" then "" else prov_frag)
          ++ (if type_choice = "All" then "" else type_frag) ++ order_clause,
        (if loc_choice = "All" then ([] : List (String × String))
            else [("loc", loc_choice)])
          ++ (if prov_choice = "All" then [] else [("pname", prov_choice)])
          ++ (if type_choice = "All" then [] else [("ft", type_choice)])) := by
  unfold browse_query
  by_cases h1 : loc_choice = "All" <;> by_cases h2 : prov_choice = "All"
    <;> by_cases h3 : type_choice = "All"
    <;> simp [h1, h2, h3, String.append_assoc]

/-! ## Claim theorems -/

/-- C1, counterexample: the Update handler submits a statement whose column
identifier is taken verbatim from free-form input — here a column name
outside the fixed allow-list of known columns — instead of rejecting it
before it reaches the store, and the identifier is interpolated into the
statement text. -/
theorem claim1_allowlist_counterexample :
    update_submit "providers" "evil_column" 1 "x"
      = some ("UPDATE providers SET evil_column = :val WHERE provider_id = :id",
          [("val", "x"), ("id", "1")])
    ∧ "evil_column" ∉ KNOWN_COLUMNS := by
  refine ⟨rfl, ?_⟩
  decide

/-- C1, amended: user-supplied values are passed only as bound parameters —
the constructed statement text never depends on them — and the table
identifier of every CRUD statement comes from the fixed four-table
selection; the update-column identifier, however, is interpolated into the
statement verbatim from free-form input, checked only for non-emptiness and
never against an identifier allow-list. -/
theorem claim1_values_bound_amended (s col_to_update : String) (rec_id : Nat)
    (new_val new_val' : String) (hs : s ∈ SECTIONS) (hcol : col_to_update ≠ "") :
    update_submit s col_to_update rec_id new_val
        = some (update_query s col_to_update, [("val", new_val), ("id", toString rec_id)])
    ∧ (update_submit s col_to_update rec_id new_val).map Prod.fst
        = (update_submit s col_to_update rec_id new_val').map Prod.fst
    ∧ ∀ loc_choice prov_choice type_choice loc' prov' ft' : String,
        (loc_choice = "All" ↔ loc' = "All") → (prov_choice = "All" ↔ prov' = "All") →
        (type_choice = "All" ↔ ft' = "All") →
        (browse_query loc_choice prov_choice type_choice).1
          = (browse_query loc' prov' ft').1 := by
  refine ⟨?_, ?_, ?_⟩
  · simp [update_submit, hcol]
  · simp [update_submit, hcol]
  · intro loc_choice prov_choice type_choice loc' prov' ft' e1 e2 e3
    rw [browse_query_eq, browse_query_eq]
    simp only [e1, e2, e3]

/-- C1, witness for the amended theorem at a concrete update. -/
theorem claim1_values_bound_amended_witness :
    update_submit "providers" "contact" 2 "555-0100"
      = some ("UPDATE providers SET contact = :val WHERE provider_id = :id",
          [("val", "555-0100"), ("id", "2")]) :=
  (claim1_values_bound_amended "providers" "contact" 2 "555-0100" "x"
    (by decide) (by decide)).1

/-- C4: for every combination of the three browse filters, the constructed
query carries exactly one `LOWER(TRIM(column)) = LOWER(TRIM(:param))`
predicate (appended with AND) and one parameter binding per non-"All"
selection, and an "All" selection contributes no predicate and never
narrows the result set. -/
theorem claim4_filter_predicates (loc_choice prov_choice type_choice : String) :
    (browse_query loc_choice prov_choice type_choice).1 =
        browse_base ++ (if loc_choice = "All" then "" else loc_frag)
          ++ (if prov_choice = "All" then "" else prov_frag)
          ++ (if type_choice = "All" then "" else type_frag) ++ order_clause
    ∧ (browse_query loc_choice prov_choice type_choice).2 =
        (if loc_choice = "All" then ([] : List (String × String))
            else [("loc", loc_choice)])
          ++ (if prov_choice = "All" then [] else [("pname", prov_choice)])
          ++ (if type_choice = "All" then [] else [("ft", type_choice)])
    ∧ (∀ r : BrowseRow, rowMatches loc_choice prov_choice type_choice r = true →
        rowMatches "All" prov_choice type_choice r = true)
    ∧ (∀ r : BrowseRow, rowMatches loc_choice prov_choice type_choice r = true →
        rowMatches loc_choice "All" type_choice r = true)
    ∧ (∀ r : BrowseRow, rowMatches loc_choice prov_choice type_choice r = true →
        rowMatches loc_choice prov_choice "All" r = true) := by
  refine ⟨by rw [browse_query_eq], by rw [browse_query_eq], ?_, ?_, ?_⟩
  all_goals
    intro r h
    simp only [rowMatches, Bool.and_eq_true, Bool.or_eq_true] at h ⊢
    obtain ⟨⟨h1, h2⟩, h3⟩ := h
  · exact ⟨⟨Or.inl rfl, h2⟩, h3⟩
  · exact ⟨⟨h1, Or.inl rfl⟩, h3⟩
  · exact ⟨⟨h1, h2⟩, Or.inl rfl⟩

/-- C4, witness: a concrete active location filter still keeps a matching
row once the filter is widened back to "All". -/
theorem claim4_filter_predicates_witness :
    rowMatches "All" "Acme Foods" "Veg" rW4 = true :=
  (claim4_filter_predicates "Delhi" "Acme Foods" "Veg").2.2.1 rW4 (by decide)

/-- C6: at startup the system proceeds exactly when all four required
tables are present in the store's catalog; otherwise it halts behind a
single warning that names exactly the missing tables (in sorted order). -/
theorem claim6_startup_check (present : List String) :
    (startup present = .proceed ↔ ∀ t ∈ REQUIRED_TABLES_SORTED, t ∈ present)
    ∧ (∀ w, startup present = .halt w →
        w = "⚠️ Some required tables are missing: "
            ++ String.intercalate ", " (missing_tables present))
    ∧ (∀ t, t ∈ missing_tables present ↔
        t ∈ REQUIRED_TABLES_SORTED ∧ t ∉ present) := by
  have hmem : ∀ t, t ∈ missing_tables present ↔
      t ∈ REQUIRED_TABLES_SORTED ∧ t ∉ present := by
    intro t
    unfold missing_tables
    rw [List.mem_filter]
    simp
  refine ⟨?_, ?_, hmem⟩
  · unfold startup
    cases h : missing_tables present with
    | nil =>
      simp only [true_iff]
      intro t ht
      by_contra hab
      have : t ∈ missing_tables present := (hmem t).mpr ⟨ht, hab⟩
      rw [h] at this
      exact absurd this (by simp)
    | cons m ms =>
      constructor
      · intro hc
        exact absurd hc (by simp)
      · intro hall
        have hm : m ∈ missing_tables present := by rw [h]; exact List.mem_cons_self m ms
        obtain ⟨h1, h2⟩ := (hmem m).mp hm
        exact absurd (hall m h1) h2
  · intro w hw
    unfold startup at hw
    cases h : missing_tables present with
    | nil => rw [h] at hw; exact absurd hw (by simp)
    | cons m ms =>
      rw [h] at hw
      have h2 := Startup.halt.inj hw
      exact h2.symm

/-- C6, witness: with all four tables present the system proceeds. -/
theorem claim6_startup_check_witness :
    startup ["claims", "food_listings", "providers", "receivers"] = .proceed :=
  (claim6_startup_check ["claims", "food_listings", "providers", "receivers"]).1.mpr
    (by decide)

/-- C5, counterexample: with a listing whose (app-inserted ISO datetime)
expiry string compares above the `'9999-12-31'` sentinel, the NULL-expiry
row sorts before a dated row, so a null expiry is not treated as the maximum
possible date and is not sorted last. -/
theorem claim5_null_last_counterexample :
    (browse_result dbC5 "All" "All" "All").map BrowseRow.expiry_date
        = [none, some "9999-12-31T00:00:00"]
    ∧ lNull ∈ dbC5.food_listings ∧ lNull.expiry_date = none := by
  refine ⟨by decide, by decide, rfl⟩

/-- C5, amended: browse results are totally ordered ascending by the string
key `COALESCE(expiry_date, '9999-12-31')`; whenever every concrete expiry
string in the store compares strictly below that sentinel (every real
calendar date before 9999-12-31 does), the NULL-expiry rows sort last. -/
theorem claim5_order_amended (db : DB) (loc_choice prov_choice type_choice : String) :
    (browse_result db loc_choice prov_choice type_choice).Pairwise
        (fun a b => rowLe a b = true)
    ∧ (allBelowSentinel db = true →
        (browse_result db loc_choice prov_choice type_choice).Pairwise
          (fun a b => a.expiry_date = none → b.expiry_date = none)) := by
  have hp : (browse_result db loc_choice prov_choice type_choice).Pairwise
      (fun a b => rowLe a b = true) :=
    pairwise_sortBy rowLe rowLe_total rowLe_trans _
  refine ⟨hp, ?_⟩
  intro hbelow
  have hmem : ∀ r ∈ browse_result db loc_choice prov_choice type_choice,
      ∀ d, r.expiry_date = some d → strLtB d "9999-12-31" = true := by
    intro r hr d hd
    have hr2 : r ∈ (browse_rows db).filter
        (rowMatches loc_choice prov_choice type_choice) :=
      (mem_sortBy rowLe _ r).mp hr
    have hr3 : r ∈ browse_rows db := List.mem_of_mem_filter hr2
    obtain ⟨f, hf, rfl⟩ := List.mem_map.mp hr3
    rw [browseRowOf_expiry] at hd
    have hall := List.all_eq_true.mp hbelow f hf
    rw [hd] at hall
    exact hall
  refine List.Pairwise.imp_of_mem ?_ hp
  intro a b ha hb hab hnone
  cases hbexp : b.expiry_date with
  | none => rfl
  | some d =>
    exfalso
    have hlt := hmem b hb d hbexp
    unfold rowLe keyCodes expiryKey at hab
    rw [hnone, hbexp] at hab
    simp only [Option.getD_none, Option.getD_some] at hab
    unfold strLtB at hlt
    rw [hab] at hlt
    simp at hlt

/-- C5, witness for the amended theorem: in a store whose expiry dates all
lie below the sentinel, the undated row sorts after the dated one. -/
theorem claim5_order_amended_witness :
    (browse_result dbW5 "All" "All" "All").Pairwise
      (fun a b => a.expiry_date = none → b.expiry_date = none) :=
  (claim5_order_amended dbW5 "All" "All" "All").2 (by decide)

/-- Membership in the unfiltered browse result is membership in the joined
rows (the filter keeps everything, the sort permutes). -/
theorem mem_browse_result_all (db : DB) (r : BrowseRow) (hr : r ∈ browse_rows db) :
    r ∈ browse_result db "All" "All" "All" := by
  unfold browse_result browseSort
  rw [mem_sortBy, List.mem_filter]
  exact ⟨hr, rowMatches_all r⟩

/-- When no provider row matches a listing's provider reference, the LEFT
JOIN fills the provider columns with NULL. -/
theorem browseRowOf_unmatched (db : DB) (f : Listing)
    (h : ∀ p ∈ db.providers, p.provider_id ≠ f.provider_id) :
    (browseRowOf db f).provider_name = none
      ∧ (browseRowOf db f).provider_contact = none := by
  unfold browseRowOf
  have hn : db.providers.find? (fun p => decide (p.provider_id = f.provider_id)) = none := by
    rw [List.find?_eq_none]
    intro p hp
    simp [h p hp]
  rw [hn]
  exact ⟨rfl, rfl⟩

/-- C10: the browse LEFT JOIN keeps every listing: a listing whose provider
reference matches no provider still appears, with NULL provider name and
contact, and deleting a provider by id never removes its listings from the
browse result (their provider columns merely become NULL). -/
theorem claim10_left_join_preserves (db : DB) (pid : Nat) (f : Listing)
    (hf : f ∈ db.food_listings) :
    ((∀ p ∈ db.providers, p.provider_id ≠ f.provider_id) →
        (browseRowOf db f).provider_name = none
        ∧ (browseRowOf db f).provider_contact = none)
    ∧ browseRowOf db f ∈ browse_result db "All" "All" "All"
    ∧ browseRowOf (delete_provider pid db) f
        ∈ browse_result (delete_provider pid db) "All" "All" "All"
    ∧ (f.provider_id = pid →
        (browseRowOf (delete_provider pid db) f).provider_name = none
        ∧ (browseRowOf (delete_provider pid db) f).provider_contact = none) := by
  refine ⟨fun h => browseRowOf_unmatched db f h, ?_, ?_, ?_⟩
  · exact mem_browse_result_all db _ (List.mem_map_of_mem (browseRowOf db) hf)
  · exact mem_browse_result_all (delete_provider pid db) _
      (List.mem_map_of_mem (browseRowOf (delete_provider pid db))
        (show f ∈ (delete_provider pid db).food_listings from hf))
  · intro hpid
    apply browseRowOf_unmatched
    intro p hp
    have hp2 : p ∈ db.providers.filter (fun p => decide (p.provider_id ≠ pid)) := hp
    rw [List.mem_filter] at hp2
    have := hp2.2
    simp only [decide_eq_true_eq] at this
    rw [hpid]
    exact this

/-- C10, witness: the orphaned listing still shows up in the browse result
after deleting provider 7. -/
theorem claim10_left_join_preserves_witness :
    browseRowOf (delete_provider 7 dbW10) lOrphan
      ∈ browse_result (delete_provider 7 dbW10) "All" "All" "All" :=
  (claim10_left_join_preserves dbW10 7 lOrphan (by decide)).2.2.1

/-- C8: on the three inserted claims the Q11 claim-status-distribution
report returns exactly two rows, Completed with count 2 and percentage
66.67 and Pending with count 1 and percentage 33.33, the percentages being
`ROUND(100.0 * count / total, 2)`. -/
theorem claim8_q11_distribution :
    q11 csC8 = [("Completed", 2, (6667 : ℚ) / 100), ("Pending", 1, (3333 : ℚ) / 100)] := by
  have hgroups : dedupAdj (sortBy strLeB (csC8.map Claim.status))
      = ["Completed", "Pending"] := by decide
  have hcnt1 : (csC8.filter (fun c => decide (c.status = "Completed"))).length = 2 := by
    decide
  have hcnt2 : (csC8.filter (fun c => decide (c.status = "Pending"))).length = 1 := by
    decide
  have hlen : csC8.length = 3 := by decide
  unfold q11
  rw [hgroups]
  simp only [List.map_cons, List.map_nil, hcnt1, hcnt2, hlen]
  have hr1 : round2 (100 * ((2 : Nat) : ℚ) / ((3 : Nat) : ℚ)) = (6667 : ℚ) / 100 := by
    unfold round2
    have : (round ((100 * ((2 : Nat) : ℚ) / ((3 : Nat) : ℚ)) * 100) : ℤ) = 6667 := by
      norm_num [round_eq, Int.floor_eq_iff]
    rw [this]
    norm_num
  have hr2 : round2 (100 * ((1 : Nat) : ℚ) / ((3 : Nat) : ℚ)) = (3333 : ℚ) / 100 := by
    unfold round2
    have : (round ((100 * ((1 : Nat) : ℚ) / ((3 : Nat) : ℚ)) * 100) : ℤ) = 3333 := by
      norm_num [round_eq, Int.floor_eq_iff]
    rw [this]
    norm_num
  rw [hr1, hr2]

/-- C3: a read never propagates an execution failure: on success the frame
is returned as-is, on any failure the caller receives the explicitly-empty
frame together with a user-visible error message — also through the cache
wrapper, where the failing execution is recorded and the system state stays
well-defined (the application continues). -/
theorem claim3_read_never_raises (run : Key → DB → Except String DF)
    (now : Nat) (s : Sys) (k : Key) :
    (∀ df, run k s.db = .ok df → fetch_df_run run s.db k = (df, none))
    ∧ (∀ e, run k s.db = .error e →
        fetch_df_run run s.db k = (emptyDF, some ("SQL error: " ++ e)))
    ∧ (∀ e, lookupFresh s.cache now k = none → run k s.db = .error e →
        cachedFetch run now s k =
          (emptyDF, { s with cache := (k, now, emptyDF) :: s.cache,
                             log := s.log ++ ["SQL error: " ++ e],
                             execCount := s.execCount + 1 })) := by
  refine ⟨?_, ?_, ?_⟩
  · intro df h
    unfold fetch_df_run
    rw [h]
  · intro e h
    unfold fetch_df_run
    rw [h]
  · intro e hmiss herr
    simp only [cachedFetch, hmiss, fetch_df_run, herr]

/-- C3, witness: the always-failing store yields the empty frame and the
reported message. -/
theorem claim3_read_never_raises_witness :
    fetch_df_run runErr db0 kR = (emptyDF, some "SQL error: disk I/O error") :=
  (claim3_read_never_raises runErr 0 sys0 kR).2.1 "disk I/O error" rfl

/-- C7: a read that executes and caches at time t1 is answered, for any
repeat of the identical (statement, parameters) key at a time within the
TTL window and with no intervening write, byte-identically from the cache
with no re-execution and no state change; an entry older than the TTL is
treated as absent, so the key is recomputed. -/
theorem claim7_cache_idempotent (run : Key → DB → Except String DF)
    (s : Sys) (k : Key) (t1 : Nat)
    (hmiss : lookupFresh s.cache t1 k = none) :
    (cachedFetch run t1 s k).2.execCount = s.execCount + 1
    ∧ (∀ t2, t1 ≤ t2 → t2 < t1 + TTL →
        cachedFetch run t2 (cachedFetch run t1 s k).2 k = cachedFetch run t1 s k)
    ∧ (∀ t2, t1 + TTL ≤ t2 →
        lookupFresh (cachedFetch run t1 s k).2.cache t2 k = none
        ∧ (cachedFetch run t2 (cachedFetch run t1 s k).2 k).2.execCount
            = (cachedFetch run t1 s k).2.execCount + 1) := by
  have hshape : cachedFetch run t1 s k =
      ((fetch_df_run run s.db k).1,
        { s with cache := (k, t1, (fetch_df_run run s.db k).1) :: s.cache,
                 log := s.log ++ (match (fetch_df_run run s.db k).2 with
                                  | some m => [m]
                                  | none => []),
                 execCount := s.execCount + 1 }) := by
    simp only [cachedFetch, hmiss]
  have hfind : (((k, t1, (fetch_df_run run s.db k).1) :: s.cache).find?
      (fun x => decide (x.1 = k))) = some (k, t1, (fetch_df_run run s.db k).1) :=
    List.find?_cons_of_pos _ (by simp)
  refine ⟨by rw [hshape], ?_, ?_⟩
  · intro t2 h12 hwin
    rw [hshape]
    simp only [cachedFetch, lookupFresh, hfind, if_pos hwin]
  · intro t2 hexp
    have hstale : lookupFresh (cachedFetch run t1 s k).2.cache t2 k = none := by
      rw [hshape]
      simp only [lookupFresh, hfind]
      rw [if_neg (Nat.not_lt.mpr hexp)]
    refine ⟨hstale, ?_⟩
    set s1 := (cachedFetch run t1 s k).2 with hs1
    simp only [cachedFetch, hstale]

/-- C7, witness: a repeat at time 30 of the read cached at time 0 returns
the identical result and state. -/
theorem claim7_cache_idempotent_witness :
    cachedFetch runOk 30 (cachedFetch runOk 0 sys0 kR).2 kR
      = cachedFetch runOk 0 sys0 kR :=
  (claim7_cache_idempotent runOk sys0 kR 0 (by decide)).2.1 30 (by decide) (by decide)

/-- C2: a write is atomic — on transaction failure the store, the cache and
the execution count are all unchanged (only the error message is added) —
and on success, and only then, the entire read cache is invalidated at once,
so that an immediately following read of any key executes against the
newly written store rather than any cached entry. -/
theorem claim2_write_atomic_invalidate (wexec : Key → DB → Except String DB)
    (s : Sys) (w : Key) :
    (∀ db', wexec w s.db = .ok db' →
        run_write wexec s w =
          { db := db', cache := [], log := s.log ++ ["Operation successful."],
            execCount := s.execCount }
        ∧ ∀ run t k, (cachedFetch run t (run_write wexec s w) k).1
              = (fetch_df_run run db' k).1
            ∧ (cachedFetch run t (run_write wexec s w) k).2.execCount
              = s.execCount + 1)
    ∧ (∀ e, wexec w s.db = .error e →
        run_write wexec s w = { s with log := s.log ++ ["Write error: " ++ e] }) := by
  refine ⟨?_, ?_⟩
  · intro db' h
    have h1 : run_write wexec s w =
        { db := db', cache := [], log := s.log ++ ["Operation successful."],
          execCount := s.execCount } := by
      unfold run_write
      rw [h]
    refine ⟨h1, ?_⟩
    intro run t k
    rw [h1]
    have hmiss : lookupFresh ([] : List (Key × Nat × DF)) t k = none := rfl
    simp only [cachedFetch, hmiss]
    exact ⟨trivial, trivial⟩
  · intro e h
    unfold run_write
    rw [h]

/-- C2, witness: a committing write leaves the new store, an emptied cache
and the success message. -/
theorem claim2_write_atomic_invalidate_witness :
    run_write wexecOk sysC2 kW
      = { db := db0, cache := [], log := ["Operation successful."], execCount := 1 } :=
  ((claim2_write_atomic_invalidate wexecOk sysC2 kW).1 db0 rfl).1

/-- C9, counterexample: after a failing read at time 0 caches the empty
frame, a successful write clears the whole cache, so an identical read at
time 10 — well inside the 60-unit TTL window — re-executes against the now
repaired store and returns a non-empty frame instead of the cached empty
one, contrary to the claim that every identical read within the TTL window
returns the empty result without re-executing. -/
theorem claim9_error_cache_counterexample :
    (cachedFetch runErr 0 sys0 kR).1 = emptyDF
    ∧ (cachedFetch runErr 0 sys0 kR).2.execCount = 1
    ∧ (cachedFetch runFixed 10
        (run_write wexecOk (cachedFetch runErr 0 sys0 kR).2 kW) kR).1 = [["42"]]
    ∧ (cachedFetch runFixed 10
        (run_write wexecOk (cachedFetch runErr 0 sys0 kR).2 kW) kR).2.execCount = 2 := by
  refine ⟨rfl, rfl, rfl, rfl⟩

/-- C9, amended: the empty frame produced by a failing read is cached under
the same (statement, parameters) key and TTL as a successful result, so
every identical read within the next TTL window with no intervening
successful write (a successful write clears the entire cache) returns the
empty result without re-executing the statement and without re-reporting
the error, even if the underlying failure has since been corrected. -/
theorem claim9_error_cached_amended (run run' : Key → DB → Except String DF)
    (s : Sys) (k : Key) (t1 t2 : Nat) (e : String)
    (hmiss : lookupFresh s.cache t1 k = none)
    (herr : run k s.db = .error e)
    (h12 : t1 ≤ t2) (hwin : t2 < t1 + TTL) :
    (cachedFetch run t1 s k).1 = emptyDF
    ∧ (cachedFetch run t1 s k).2.cache = (k, t1, emptyDF) :: s.cache
    ∧ cachedFetch run' t2 (cachedFetch run t1 s k).2 k
        = (emptyDF, (cachedFetch run t1 s k).2) := by
  have hshape : cachedFetch run t1 s k =
      (emptyDF, { s with cache := (k, t1, emptyDF) :: s.cache,
                         log := s.log ++ ["SQL error: " ++ e],
                         execCount := s.execCount + 1 }) := by
    simp only [cachedFetch, hmiss, fetch_df_run, herr]
  have hfind : (((k, t1, emptyDF) :: s.cache).find? (fun x => decide (x.1 = k)))
      = some (k, t1, emptyDF) :=
    List.find?_cons_of_pos _ (by simp)
  refine ⟨by rw [hshape], by rw [hshape], ?_⟩
  rw [hshape]
  simp only [cachedFetch, lookupFresh, hfind, if_pos hwin]

/-- C9, witness for the amended theorem: with the store repaired, the read
at time 10 still answers the cached empty frame untouched. -/
theorem claim9_error_cached_amended_witness :
    cachedFetch runFixed 10 (cachedFetch runErr 0 sys0 kR).2 kR
      = (emptyDF, (cachedFetch runErr 0 sys0 kR).2) :=
  (claim9_error_cached_amended runErr runFixed sys0 kR 0 10 "disk I/O error"
    (by decide) rfl (by decide) (by decide)).2.2

end FoodWaste
